import Mathlib

/-!
Shallow embedding of the synthetic facility dataset, the filter/sort pipeline
and the aggregate statistics of `app/Map/page.tsx` in the AetherScan
repository.  JavaScript numbers are modelled as exact rationals,
`Math.floor` / `Math.round` / `toFixed` as explicit rounding on `ℚ`, and each
`Math.random()` result as an abstract rational draw in `[0, 1)` threaded
explicitly through the generator.
-/

namespace AetherScan

/-- Model of JavaScript `Math.floor` on an exact rational
(`Rat.floor` is used so the function evaluates inside the kernel). -/
def jsFloor (q : ℚ) : ℤ := Rat.floor q

/-- Model of JavaScript `Math.round`: round half toward positive infinity. -/
def jsRound (q : ℚ) : ℤ := Rat.floor (q + 1/2)

/-- Model of `parseFloat(x.toFixed(n))`: round to `n` decimal places, ties
rounded up, which matches `toFixed` on the nonnegative values produced by the
generator. -/
def jsToFixed (q : ℚ) (n : ℕ) : ℚ := ((Rat.floor (q * 10 ^ n + 1/2) : ℤ) : ℚ) / 10 ^ n

/-- Model of `String(i).padStart(3, "0")`. -/
def padStart3 (s : String) : String :=
  if s.length < 3 then String.mk (List.replicate (3 - s.length) '0') ++ s else s

/-- Model of `s.split(" ")[0]`. -/
def firstWord (s : String) : String := (s.splitOn " ").headD ""

/-- The characters `pat` occur at the start of `hay`. -/
def charsStartWith : List Char → List Char → Bool
  | _, [] => true
  | [], _ :: _ => false
  | c :: cs, d :: ds => (c == d) && charsStartWith cs ds

/-- The characters `pat` occur contiguously somewhere in `hay`. -/
def charsContain : List Char → List Char → Bool
  | [], pat => pat.isEmpty
  | c :: cs, pat => charsStartWith (c :: cs) pat || charsContain cs pat

/-- Model of JavaScript `hay.includes(pat)`: substring containment. -/
def jsIncludes (hay pat : String) : Bool := charsContain hay.data pat.data

/-- Model of `a.localeCompare(b)`: the default collation is modelled as the
total lexicographic order on strings, returning a negative, zero or positive
integer exactly as the source comparator expects. -/
def localeCompare (a b : String) : ℤ := if a < b then -1 else if b < a then 1 else 0

/-- Mirror of the `AirPollutionData` interface (`app/Map/page.tsx`). -/
structure AirPollutionData where
  pm25 : ℤ
  pm10 : ℤ
  co : ℚ
  co2 : ℤ
  nox : ℤ
  so2 : ℤ
  o3 : ℤ
  voc : ℚ
  aqi : ℤ
deriving DecidableEq

/-- Mirror of the `ParticleComposition` interface. -/
structure ParticleComposition where
  organicCarbon : ℚ
  blackCarbon : ℚ
  sulfates : ℚ
  nitrates : ℚ
  metals : ℚ
  dust : ℚ
deriving DecidableEq

/-- Mirror of the `EmissionSource` interface. -/
structure EmissionSource where
  stacks' : ℤ
  vehicles : ℤ
  processes : ℤ
  fugitive : ℤ
deriving DecidableEq

/-- Mirror of the inline `seasonalVariation` object type. -/
structure SeasonalVariation where
  winter : ℤ
  summer : ℤ
  monsoon : ℤ
deriving DecidableEq

/-- Mirror of the `Factory` interface. -/
structure Factory where
  id : ℤ
  name : String
  lat : ℚ
  lon : ℚ
  state : String
  industryType : String
  products : String
  yearEstablished : ℤ
  employees : ℤ
  pollution : AirPollutionData
  particleComposition : ParticleComposition
  emissionSources : EmissionSource
  complianceScore : ℤ
  violations : ℤ
  healthImpactRadius : ℚ
  populationAffected : ℤ
  controlMeasures : List String
  seasonalVariation : SeasonalVariation
deriving DecidableEq

/-- Mirror of the `StateInfo` interface: `center` is `[lon, lat]` as in the
source array literals. -/
structure StateInfo where
  name : String
  center : ℚ × ℚ
  spread : ℚ
deriving DecidableEq

/-- One entry of the `industryTypes` catalog. -/
structure IndustryInfo where
  type : String
  products : String
deriving DecidableEq

/-- The fixed `states` catalog of the generator. -/
def states : List StateInfo :=
  [ ⟨"Uttarakhand", (78.0322, 30.0668), 1.5⟩
  , ⟨"Uttar Pradesh", (80.9462, 26.8467), 2.5⟩
  , ⟨"Maharashtra", (75.7139, 19.7515), 2.5⟩
  , ⟨"Gujarat", (71.1924, 22.2587), 2⟩
  , ⟨"West Bengal", (88.3639, 22.5726), 1.8⟩
  , ⟨"Karnataka", (77.5946, 15.3173), 2.2⟩
  , ⟨"Tamil Nadu", (78.6569, 11.1271), 2⟩
  , ⟨"Rajasthan", (74.2179, 27.0238), 2.5⟩
  , ⟨"Punjab", (75.3412, 31.1471), 1.5⟩
  , ⟨"Haryana", (76.0856, 29.0588), 1.3⟩ ]

/-- The fixed `industryTypes` catalog of the generator (15 entries). -/
def industryTypes : List IndustryInfo :=
  [ ⟨"Steel Manufacturing", "Steel alloys, reinforced bars, structural steel"⟩
  , ⟨"Cement Production", "Portland cement, clinker, construction materials"⟩
  , ⟨"Chemical Processing", "Industrial chemicals, solvents, acids"⟩
  , ⟨"Thermal Power", "Electricity generation from coal combustion"⟩
  , ⟨"Oil Refinery", "Refined petroleum, diesel, lubricants"⟩
  , ⟨"Pharmaceutical", "API manufacturing, bulk drugs, formulations"⟩
  , ⟨"Textile Dyeing", "Dyed fabrics, processed textiles"⟩
  , ⟨"Fertilizer Plant", "Nitrogen fertilizers, urea, ammonia"⟩
  , ⟨"Plastic Manufacturing", "Polymer products, plastic packaging"⟩
  , ⟨"Paper Mill", "Paper pulp, packaging materials"⟩
  , ⟨"Glass Manufacturing", "Float glass, container glass"⟩
  , ⟨"Aluminum Smelting", "Primary aluminum, alloys"⟩
  , ⟨"Battery Production", "Lead-acid batteries, lithium cells"⟩
  , ⟨"Paint Manufacturing", "Industrial paints, coatings"⟩
  , ⟨"Brick Kiln", "Clay bricks, construction materials"⟩ ]

/-- The fixed `controlMeasures` catalog of the generator (8 entries). -/
def controlMeasures : List String :=
  [ "Electrostatic Precipitators"
  , "Bag Filters"
  , "Scrubbers"
  , "Catalytic Converters"
  , "Cyclone Separators"
  , "Carbon Adsorption"
  , "Stack Height Optimization"
  , "Continuous Emission Monitoring" ]

/-- The 33 `Math.random()` draws consumed by one iteration of the generator
loop, named after the value each one feeds, listed in source evaluation
order. -/
structure RandomDraw where
  stateR : ℚ
  latR : ℚ
  lonR : ℚ
  industryR : ℚ
  aqiR : ℚ
  pm25R : ℚ
  pm10R : ℚ
  yearR : ℚ
  employeesR : ℚ
  coR : ℚ
  co2R : ℚ
  noxR : ℚ
  so2R : ℚ
  o3R : ℚ
  vocR : ℚ
  organicCarbonR : ℚ
  blackCarbonR : ℚ
  sulfatesR : ℚ
  nitratesR : ℚ
  metalsR : ℚ
  dustR : ℚ
  stacksR : ℚ
  vehiclesR : ℚ
  processesR : ℚ
  fugitiveR : ℚ
  complianceR : ℚ
  violationsR : ℚ
  radiusR : ℚ
  populationR : ℚ
  measuresR : ℚ
  winterR : ℚ
  summerR : ℚ
  monsoonR : ℚ

/-- A rational models one `Math.random()` result: it lies in `[0, 1)`. -/
def inUnit (q : ℚ) : Prop := 0 ≤ q ∧ q < 1

instance (q : ℚ) : Decidable (inUnit q) := by unfold inUnit; infer_instance

/-- Every draw of the iteration lies in `[0, 1)`. -/
def ValidDraw (r : RandomDraw) : Prop :=
  inUnit r.stateR ∧ inUnit r.latR ∧ inUnit r.lonR ∧ inUnit r.industryR ∧
  inUnit r.aqiR ∧ inUnit r.pm25R ∧ inUnit r.pm10R ∧ inUnit r.yearR ∧
  inUnit r.employeesR ∧ inUnit r.coR ∧ inUnit r.co2R ∧ inUnit r.noxR ∧
  inUnit r.so2R ∧ inUnit r.o3R ∧ inUnit r.vocR ∧ inUnit r.organicCarbonR ∧
  inUnit r.blackCarbonR ∧ inUnit r.sulfatesR ∧ inUnit r.nitratesR ∧
  inUnit r.metalsR ∧ inUnit r.dustR ∧ inUnit r.stacksR ∧ inUnit r.vehiclesR ∧
  inUnit r.processesR ∧ inUnit r.fugitiveR ∧ inUnit r.complianceR ∧
  inUnit r.violationsR ∧ inUnit r.radiusR ∧ inUnit r.populationR ∧
  inUnit r.measuresR ∧ inUnit r.winterR ∧ inUnit r.summerR ∧ inUnit r.monsoonR

instance (r : RandomDraw) : Decidable (ValidDraw r) := by
  unfold ValidDraw; infer_instance

/-- The draw in which every `Math.random()` result is `0`. -/
def zeroDraw : RandomDraw :=
  ⟨0, 0, 0, 0, 0, 0, 0, 0, 0, 0, 0, 0, 0, 0, 0, 0, 0,
   0, 0, 0, 0, 0, 0, 0, 0, 0, 0, 0, 0, 0, 0, 0, 0⟩

/-- Embedding of one iteration of the generator loop in `generateFactories`
(`app/Map/page.tsx` lines 146-203): `i` is the loop index and `r` packages the
33 `Math.random()` draws of the iteration.  The source's non-null index
assertions (`states[...]!`) are modelled by `getD` with a dummy default that
is never hit for draws in `[0, 1)`. -/
def mkFactory (i : ℕ) (r : RandomDraw) : Factory :=
  let state := states.getD (jsFloor (r.stateR * (states.length : ℚ))).toNat ⟨"", (0, 0), 0⟩
  let lat := state.center.2 + (r.latR - 0.5) * state.spread
  let lon := state.center.1 + (r.lonR - 0.5) * state.spread
  let industry := industryTypes.getD (jsFloor (r.industryR * (industryTypes.length : ℚ))).toNat ⟨"", ""⟩
  let baseAQI := jsFloor (r.aqiR * 450) + 50
  let pm25 := jsFloor ((baseAQI : ℚ) * 0.4 + r.pm25R * 50)
  let pm10 := jsFloor ((pm25 : ℚ) * 1.8 + r.pm10R * 30)
  { id := (i : ℤ)
    name := firstWord industry.type ++ " Facility " ++ padStart3 (toString i)
    lat := jsToFixed lat 6
    lon := jsToFixed lon 6
    state := state.name
    industryType := industry.type
    products := industry.products
    yearEstablished := jsFloor (r.yearR * 45) + 1975
    employees := jsFloor (r.employeesR * 3000) + 200
    pollution :=
      { pm25 := pm25
        pm10 := pm10
        co := jsToFixed (r.coR * 15 + 2) 2
        co2 := jsFloor (r.co2R * 800 + 400)
        nox := jsFloor (r.noxR * 150 + 30)
        so2 := jsFloor (r.so2R * 200 + 40)
        o3 := jsFloor (r.o3R * 120 + 20)
        voc := jsToFixed (r.vocR * 500 + 100) 1
        aqi := baseAQI }
    particleComposition :=
      { organicCarbon := jsToFixed (r.organicCarbonR * 30 + 10) 1
        blackCarbon := jsToFixed (r.blackCarbonR * 20 + 5) 1
        sulfates := jsToFixed (r.sulfatesR * 25 + 8) 1
        nitrates := jsToFixed (r.nitratesR * 20 + 6) 1
        metals := jsToFixed (r.metalsR * 10 + 2) 1
        dust := jsToFixed (r.dustR * 30 + 15) 1 }
    emissionSources :=
      { stacks' := jsFloor (r.stacksR * 50 + 20)
        vehicles := jsFloor (r.vehiclesR * 30 + 10)
        processes := jsFloor (r.processesR * 40 + 15)
        fugitive := jsFloor (r.fugitiveR * 25 + 5) }
    complianceScore := jsFloor (r.complianceR * 100)
    violations := jsFloor (r.violationsR * 15)
    healthImpactRadius := jsToFixed (r.radiusR * 8 + 2) 1
    populationAffected := jsFloor (r.populationR * 100000 + 10000)
    controlMeasures := controlMeasures.take (jsFloor (r.measuresR * 5) + 2).toNat
    seasonalVariation :=
      { winter := jsFloor (r.winterR * 40 + 80)
        summer := jsFloor (r.summerR * 30 + 60)
        monsoon := jsFloor (r.monsoonR * 25 + 50) } }

/-- Embedding of `generateFactories`: the source loops `i = 1..300` pushing one
record per iteration; the literal bound 300 is generalized to `count`, and
`rs k` holds the draws consumed by iteration `k + 1`. -/
def generateFactories (rs : ℕ → RandomDraw) (count : ℕ) : List Factory :=
  (List.range count).map (fun k => mkFactory (k + 1) (rs k))

/-- Embedding of the module-scope `FACTORIES = generateFactories()` constant
with its fixed count of 300. -/
def FACTORIES (rs : ℕ → RandomDraw) : List Factory := generateFactories rs 300

/-- The user-controlled criteria read by the `filteredFactories` memo: the
six pieces of React state it closes over, with the source's string encodings
(`"All"` sentinels for state/industry, `"all"` for the pollutant focus). -/
structure FilterCriteria where
  searchTerm : String
  selectedState : String
  selectedIndustry : String
  aqiRange : ℤ × ℤ
  pollutantFilter : String
  sortBy : String
deriving DecidableEq

/-- Model of the dynamic field access `f.pollution[key as keyof
AirPollutionData]`: `none` models the JavaScript `undefined` for a key that is
not a field. -/
def pollutionValue (p : AirPollutionData) (key : String) : Option ℚ :=
  if key = "pm25" then some (p.pm25 : ℚ)
  else if key = "pm10" then some (p.pm10 : ℚ)
  else if key = "co" then some p.co
  else if key = "co2" then some (p.co2 : ℚ)
  else if key = "nox" then some (p.nox : ℚ)
  else if key = "so2" then some (p.so2 : ℚ)
  else if key = "o3" then some (p.o3 : ℚ)
  else if key = "voc" then some p.voc
  else if key = "aqi" then some (p.aqi : ℚ)
  else none

/-- The option values of the pollutant-focus select element on the Map page
(`"all"` plus the eight pollutant keys). -/
def pollutantOptions : List String :=
  ["all", "pm25", "pm10", "co", "co2", "nox", "so2", "o3", "voc"]

/-- Embedding of the filter predicate in the `filteredFactories` memo
(`app/Map/page.tsx` lines 508-524): conjunction of the search, state,
industry, AQI-range and pollutant-focus tests.  A comparison on `undefined`
(`pollutionValue` returning `none`) is `false`, as in JavaScript. -/
def matchesCriteria (c : FilterCriteria) (f : Factory) : Bool :=
  let matchesSearch := c.searchTerm == "" ||
    jsIncludes f.name.toLower c.searchTerm.toLower ||
    jsIncludes f.state.toLower c.searchTerm.toLower ||
    jsIncludes f.industryType.toLower c.searchTerm.toLower
  let matchesState := c.selectedState == "All" || f.state == c.selectedState
  let matchesIndustry := c.selectedIndustry == "All" || f.industryType == c.selectedIndustry
  let matchesAQI := decide (c.aqiRange.1 ≤ f.pollution.aqi) && decide (f.pollution.aqi ≤ c.aqiRange.2)
  let matchesPollutant :=
    if c.pollutantFilter ≠ "all" then
      match pollutionValue f.pollution c.pollutantFilter with
      | some v => decide (0 < v)
      | none => false
    else true
  matchesSearch && matchesState && matchesIndustry && matchesAQI && matchesPollutant

/-- Embedding of the sort comparator in the `filteredFactories` memo
(`app/Map/page.tsx` lines 526-532). -/
def jsSortCompare (sortBy : String) (a b : Factory) : ℤ :=
  if sortBy = "aqi" then b.pollution.aqi - a.pollution.aqi
  else if sortBy = "name" then localeCompare a.name b.name
  else if sortBy = "compliance" then b.complianceScore - a.complianceScore
  else if sortBy = "population" then b.populationAffected - a.populationAffected
  else 0

/-- The `le` relation induced by the comparator: JavaScript's stable
`Array.prototype.sort` keeps `a` before `b` exactly when the comparator is
nonpositive on `(a, b)`. -/
def sortLE (sortBy : String) (a b : Factory) : Bool :=
  decide (jsSortCompare sortBy a b ≤ 0)

/-- Embedding of the `filteredFactories` memo: filter the dataset, then sort
the (fresh) filtered array with the comparator for the active sort key.
`Array.prototype.sort` is stable (ES2019), modelled by `List.mergeSort`. -/
def filteredFactories (dataset : List Factory) (c : FilterCriteria) : List Factory :=
  (dataset.filter (matchesCriteria c)).mergeSort (sortLE c.sortBy)

/-- Mirror of the object returned by the `stats` memo
(`app/Map/page.tsx` lines 537-556). -/
structure Stats where
  avgAQI : ℤ
  criticalCount : ℤ
  totalPopulation : ℤ
  avgCompliance : ℤ
  avgPM25 : ℤ
  totalViolations : ℤ
deriving DecidableEq

/-- Embedding of the `stats` memo over the current filtered view (the
`!isClient` hydration guard, which returns the same all-zero object that an
empty view produces, is presentation glue and not modelled).  Each average is
an integer `reduce` sum divided by the length, guarded by `length > 0`. -/
def stats (filtered : List Factory) : Stats :=
  let n := filtered.length
  { avgAQI :=
      if 0 < n then jsRound (((filtered.map (fun f => f.pollution.aqi)).sum : ℚ) / (n : ℚ)) else 0
    criticalCount := ((filtered.filter (fun f => decide (300 < f.pollution.aqi))).length : ℤ)
    totalPopulation := (filtered.map (fun f => f.populationAffected)).sum
    avgCompliance :=
      if 0 < n then jsRound (((filtered.map (fun f => f.complianceScore)).sum : ℚ) / (n : ℚ)) else 0
    avgPM25 :=
      if 0 < n then jsRound (((filtered.map (fun f => f.pollution.pm25)).sum : ℚ) / (n : ℚ)) else 0
    totalViolations := (filtered.map (fun f => f.violations)).sum }

/-- Explicit-store model of the pipeline's effect on the array heap, used to
state the frame property of `filteredFactories`.  References are naturals, a
heap maps each reference to array contents, `next` is the next fresh
reference.  `FACTORIES.filter(...)` allocates a fresh array at `next`;
`filtered.sort(...)` then mutates that fresh array in place.  The function
returns the updated heap, the new allocation bound and the reference holding
the result. -/
def applyOnHeap (h : ℕ → List Factory) (next dataset : ℕ) (c : FilterCriteria) :
    (ℕ → List Factory) × ℕ × ℕ :=
  let filtered := (h dataset).filter (matchesCriteria c)
  let h1 : ℕ → List Factory := fun r => if r = next then filtered else h r
  let sorted := (h1 next).mergeSort (sortLE c.sortBy)
  let h2 : ℕ → List Factory := fun r => if r = next then sorted else h1 r
  (h2, next + 1, next)

/-- A concrete facility record for the end-to-end example of the spec: only
the AQI value varies across the five records, the other attributes are fixed
plausible values. -/
def exampleRecord (i aqi : ℤ) : Factory :=
  { id := i
    name := "Steel Facility 00" ++ toString i
    lat := 30
    lon := 78
    state := "Uttarakhand"
    industryType := "Steel Manufacturing"
    products := "Steel alloys, reinforced bars, structural steel"
    yearEstablished := 2000
    employees := 500
    pollution :=
      { pm25 := 80, pm10 := 150, co := 5, co2 := 600, nox := 90, so2 := 100,
        o3 := 60, voc := 200, aqi := aqi }
    particleComposition :=
      { organicCarbon := 10, blackCarbon := 5, sulfates := 8, nitrates := 6,
        metals := 2, dust := 15 }
    emissionSources := { stacks' := 20, vehicles := 10, processes := 15, fugitive := 5 }
    complianceScore := 50
    violations := 3
    healthImpactRadius := 4
    populationAffected := 50000
    controlMeasures := ["Electrostatic Precipitators", "Bag Filters"]
    seasonalVariation := { winter := 90, summer := 70, monsoon := 60 } }

/-- The five-record dataset of the spec's end-to-end example, with AQI values
`[450, 120, 310, 75, 500]`. -/
def exampleDataset : List Factory :=
  [ exampleRecord 1 450, exampleRecord 2 120, exampleRecord 3 310,
    exampleRecord 4 75, exampleRecord 5 500 ]

/-- The criteria of the end-to-end example: no search text, no state or
industry restriction, AQI range `[100, 400]`, no pollutant focus, sort by
AQI descending. -/
def exampleCriteria : FilterCriteria :=
  { searchTerm := ""
    selectedState := "All"
    selectedIndustry := "All"
    aqiRange := (100, 400)
    pollutantFilter := "all"
    sortBy := "aqi" }

/-- The example criteria with the name sort key active. -/
def exampleNameCriteria : FilterCriteria :=
  { exampleCriteria with sortBy := "name" }

/-- The random stream in which every draw is `0`. -/
def zeroStream : ℕ → RandomDraw := fun _ => zeroDraw

/-- A concrete heap for the frame example: every reference holds the example
dataset. -/
def exampleHeap : ℕ → List Factory := fun _ => exampleDataset

theorem jsFloor_eq_floor (q : ℚ) : jsFloor q = Int.floor q := by
  rw [jsFloor, Rat.floor_def', ← Rat.floor_def]

theorem ratFloor_eq (q : ℚ) : Rat.floor q = Int.floor q := by
  rw [Rat.floor_def', ← Rat.floor_def]

theorem jsRound_eq (q : ℚ) : jsRound q = Int.floor (q + 1/2) := by
  rw [jsRound, ratFloor_eq]

theorem jsFloor_nonneg {q : ℚ} (h : 0 ≤ q) : 0 ≤ jsFloor q := by
  rw [jsFloor_eq_floor]; exact Int.floor_nonneg.mpr h

theorem le_jsFloor {z : ℤ} {q : ℚ} (h : (z : ℚ) ≤ q) : z ≤ jsFloor q := by
  rw [jsFloor_eq_floor]; exact Int.le_floor.mpr h

theorem jsFloor_lt {q : ℚ} {z : ℤ} (h : q < (z : ℚ)) : jsFloor q < z := by
  rw [jsFloor_eq_floor]; exact Int.floor_lt.mpr h

theorem jsToFixed_pos {q : ℚ} (n : ℕ) (h : 1 ≤ q) : 0 < jsToFixed q n := by
  rw [jsToFixed, ratFloor_eq]
  have hpow : (0:ℚ) < 10 ^ n := by positivity
  apply div_pos _ hpow
  have h1 : (1:ℤ) ≤ Int.floor (q * 10 ^ n + 1/2) := by
    apply Int.le_floor.mpr
    push_cast
    have h2 : (1:ℚ) * 10 ^ n ≤ q * 10 ^ n :=
      mul_le_mul_of_nonneg_right h (le_of_lt hpow)
    have h3 : (1:ℚ) ≤ 10 ^ n := by
      calc (1:ℚ) = 1 ^ n := (one_pow n).symm
      _ ≤ 10 ^ n := pow_le_pow_left₀ (by norm_num) (by norm_num) n
    nlinarith
  exact_mod_cast lt_of_lt_of_le Int.zero_lt_one h1

theorem localeCompare_nonpos_iff {a b : String} : localeCompare a b ≤ 0 ↔ a ≤ b := by
  unfold localeCompare
  split_ifs with h1 h2
  · exact iff_of_true (by norm_num) h1.le
  · exact iff_of_false (by norm_num) (not_le.mpr h2)
  · exact iff_of_true le_rfl (le_of_not_lt h2)

theorem sortLE_total (s : String) (a b : Factory) : (sortLE s a b || sortLE s b a) = true := by
  simp only [sortLE, Bool.or_eq_true, decide_eq_true_eq]
  unfold jsSortCompare
  split_ifs with h1 h2 h3 h4
  · omega
  · rcases le_total a.name b.name with h | h
    · exact Or.inl (localeCompare_nonpos_iff.mpr h)
    · exact Or.inr (localeCompare_nonpos_iff.mpr h)
  · omega
  · omega
  · omega

theorem sortLE_trans (s : String) (a b c : Factory) :
    sortLE s a b = true → sortLE s b c = true → sortLE s a c = true := by
  simp only [sortLE, decide_eq_true_eq]
  unfold jsSortCompare
  split_ifs with h1 h2 h3 h4
  · omega
  · intro hab hbc
    exact localeCompare_nonpos_iff.mpr
      (le_trans (localeCompare_nonpos_iff.mp hab) (localeCompare_nonpos_iff.mp hbc))
  · omega
  · omega
  · omega

theorem mem_generateFactories {rs : ℕ → RandomDraw} {n : ℕ} {f : Factory} :
    f ∈ generateFactories rs n ↔ ∃ k, k < n ∧ f = mkFactory (k + 1) (rs k) := by
  simp only [generateFactories, List.mem_map, List.mem_range]
  constructor
  · rintro ⟨k, hk, rfl⟩; exact ⟨k, hk, rfl⟩
  · rintro ⟨k, hk, rfl⟩; exact ⟨k, hk, rfl⟩

theorem mkFactory_id (i : ℕ) (r : RandomDraw) : (mkFactory i r).id = (i : ℤ) := rfl

theorem mkFactory_aqi (i : ℕ) (r : RandomDraw) :
    (mkFactory i r).pollution.aqi = jsFloor (r.aqiR * 450) + 50 := rfl

theorem mkFactory_pm25 (i : ℕ) (r : RandomDraw) :
    (mkFactory i r).pollution.pm25 =
      jsFloor (((jsFloor (r.aqiR * 450) + 50 : ℤ) : ℚ) * 0.4 + r.pm25R * 50) := rfl

theorem mkFactory_pm10 (i : ℕ) (r : RandomDraw) :
    (mkFactory i r).pollution.pm10 =
      jsFloor (((jsFloor (((jsFloor (r.aqiR * 450) + 50 : ℤ) : ℚ) * 0.4 + r.pm25R * 50) : ℤ) : ℚ)
        * 1.8 + r.pm10R * 30) := rfl

theorem mkFactory_controlMeasures (i : ℕ) (r : RandomDraw) :
    (mkFactory i r).controlMeasures =
      controlMeasures.take (jsFloor (r.measuresR * 5) + 2).toNat := rfl

theorem mkFactory_aqi_ge (i : ℕ) (r : RandomDraw) (h : inUnit r.aqiR) :
    50 ≤ (mkFactory i r).pollution.aqi := by
  rw [mkFactory_aqi]
  have := jsFloor_nonneg (mul_nonneg h.1 (by norm_num : (0:ℚ) ≤ 450))
  omega

theorem mkFactory_pm25_ge (i : ℕ) (r : RandomDraw) (ha : inUnit r.aqiR)
    (hp : inUnit r.pm25R) : 20 ≤ (mkFactory i r).pollution.pm25 := by
  rw [mkFactory_pm25]
  apply le_jsFloor
  have h1 : (0:ℤ) ≤ jsFloor (r.aqiR * 450) :=
    jsFloor_nonneg (mul_nonneg ha.1 (by norm_num))
  have h2 : (0:ℚ) ≤ ((jsFloor (r.aqiR * 450) : ℤ) : ℚ) := by exact_mod_cast h1
  have h3 : (0:ℚ) ≤ r.pm25R * 50 := mul_nonneg hp.1 (by norm_num)
  push_cast
  nlinarith

theorem mkFactory_pm25_le_pm10 (i : ℕ) (r : RandomDraw) (ha : inUnit r.aqiR)
    (hp : inUnit r.pm25R) (hq : inUnit r.pm10R) :
    (mkFactory i r).pollution.pm25 ≤ (mkFactory i r).pollution.pm10 := by
  have h20 := mkFactory_pm25_ge i r ha hp
  rw [mkFactory_pm25] at h20 ⊢
  rw [mkFactory_pm10]
  apply le_jsFloor
  have h2 : (0:ℚ) ≤ ((jsFloor (((jsFloor (r.aqiR * 450) + 50 : ℤ) : ℚ) * 0.4 + r.pm25R * 50) : ℤ) : ℚ) := by
    have : (0:ℤ) ≤ jsFloor (((jsFloor (r.aqiR * 450) + 50 : ℤ) : ℚ) * 0.4 + r.pm25R * 50) := by omega
    exact_mod_cast this
  have h3 : (0:ℚ) ≤ r.pm10R * 30 := mul_nonneg hq.1 (by norm_num)
  nlinarith

theorem exampleFiltered :
    filteredFactories exampleDataset exampleCriteria =
      [exampleRecord 3 310, exampleRecord 2 120] := by
  have h1 : exampleDataset.filter (matchesCriteria exampleCriteria) =
      [exampleRecord 2 120, exampleRecord 3 310] := by decide
  rw [filteredFactories, h1]
  simp [List.mergeSort, List.splitInTwo, List.splitAt_eq, List.merge,
    sortLE, jsSortCompare, exampleCriteria, exampleRecord]

/-- Claim C1 (counterexample): the spec's end-to-end example expects the
record with AQI 75 in the output of the inclusive AQI range filter
`[100, 400]`, but `75 < 100`, so the code excludes it: the claimed output
`[310, 120, 75]` (with `avgAQI = 168`, `criticalCount = 1`) is false for the
example dataset. -/
theorem end_to_end_claim_counterexample :
    ((filteredFactories exampleDataset exampleCriteria).map (fun f => f.pollution.aqi) =
        [310, 120, 75] ∧
      (stats (filteredFactories exampleDataset exampleCriteria)).avgAQI = 168 ∧
      (stats (filteredFactories exampleDataset exampleCriteria)).criticalCount = 1) ↔
      False := by
  refine iff_false_intro (fun h => absurd h.1 ?_)
  rw [exampleFiltered]
  decide

/-- Claim C1 (amended): on the five-record example dataset with AQI values
`[450, 120, 310, 75, 500]`, the pipeline with inclusive AQI range
`[100, 400]` and sort key `"aqi"` returns exactly the records with AQI
`[310, 120]` in that order (75 is below the range), and the statistics over
that output give `avgAQI = round(430/2) = 215` and `criticalCount = 1`. -/
theorem end_to_end_example :
    (filteredFactories exampleDataset exampleCriteria).map (fun f => f.pollution.aqi) =
      [310, 120] ∧
    (stats (filteredFactories exampleDataset exampleCriteria)).avgAQI = 215 ∧
    (stats (filteredFactories exampleDataset exampleCriteria)).criticalCount = 1 := by
  rw [exampleFiltered]
  refine ⟨rfl, ?_, rfl⟩
  show (stats [exampleRecord 3 310, exampleRecord 2 120]).avgAQI = 215
  simp only [stats, exampleRecord]
  norm_num [jsRound_eq, Int.floor_eq_iff]

/-- Claim C2: on the empty sequence of facility records the aggregate
statistics are the all-zero record — the record count (the length of the
filtered view) is 0, and every average goes through the explicit
`length > 0` guard, so the empty set yields 0 rather than a division by
zero. -/
theorem stats_empty_all_zero :
    stats ([] : List Factory) =
      { avgAQI := 0, criticalCount := 0, totalPopulation := 0,
        avgCompliance := 0, avgPM25 := 0, totalViolations := 0 } ∧
    ([] : List Factory).length = 0 :=
  ⟨rfl, rfl⟩

/-- Claim C4: the filter/sort pipeline is idempotent — applying it twice with
the same criteria returns the same sequence as applying it once, for every
dataset and every criteria value. -/
theorem filter_pipeline_idempotent (d : List Factory) (c : FilterCriteria) :
    filteredFactories (filteredFactories d c) c = filteredFactories d c := by
  unfold filteredFactories
  have hfilter :
      ((d.filter (matchesCriteria c)).mergeSort (sortLE c.sortBy)).filter (matchesCriteria c) =
        (d.filter (matchesCriteria c)).mergeSort (sortLE c.sortBy) :=
    List.filter_eq_self.mpr (fun a ha => List.of_mem_filter (List.mem_mergeSort.mp ha))
  rw [hfilter]
  exact List.mergeSort_of_sorted
    (List.sorted_mergeSort (sortLE_trans c.sortBy) (sortLE_total c.sortBy) _)

/-- Claim C7: every record in the pipeline's output satisfies the inclusive
AQI range test, `min ≤ aqi` and `aqi ≤ max`. -/
theorem aqi_range_sound (d : List Factory) (c : FilterCriteria) (f : Factory)
    (hf : f ∈ filteredFactories d c) :
    c.aqiRange.1 ≤ f.pollution.aqi ∧ f.pollution.aqi ≤ c.aqiRange.2 := by
  unfold filteredFactories at hf
  have hp := List.of_mem_filter (List.mem_mergeSort.mp hf)
  simp only [matchesCriteria, Bool.and_eq_true, decide_eq_true_eq] at hp
  exact ⟨hp.1.2.1, hp.1.2.2⟩

theorem aqi_range_sound_witness :
    exampleRecord 3 310 ∈ filteredFactories exampleDataset exampleCriteria ∧
    (exampleCriteria.aqiRange.1 ≤ (exampleRecord 3 310).pollution.aqi ∧
      (exampleRecord 3 310).pollution.aqi ≤ exampleCriteria.aqiRange.2) := by
  have hmem : exampleRecord 3 310 ∈ filteredFactories exampleDataset exampleCriteria := by
    rw [exampleFiltered]
    exact List.mem_cons_self _ _
  exact ⟨hmem, aqi_range_sound exampleDataset exampleCriteria _ hmem⟩

/-- Claim C8: with the `"name"` sort key the pipeline's output is
non-decreasing under the locale string comparison used by the comparator. -/
theorem name_sort_nondecreasing (d : List Factory) (c : FilterCriteria)
    (hs : c.sortBy = "name") :
    (filteredFactories d c).Pairwise (fun a b => localeCompare a.name b.name ≤ 0) := by
  unfold filteredFactories
  rw [hs]
  refine List.Pairwise.imp ?_
    (List.sorted_mergeSort (sortLE_trans "name") (sortLE_total "name")
      (d.filter (matchesCriteria c)))
  intro a b hab
  have h : jsSortCompare "name" a b ≤ 0 := by simpa [sortLE] using hab
  simpa [jsSortCompare] using h

theorem name_sort_nondecreasing_witness :
    exampleNameCriteria.sortBy = "name" ∧
    (filteredFactories exampleDataset exampleNameCriteria).Pairwise
      (fun a b => localeCompare a.name b.name ≤ 0) :=
  ⟨rfl, name_sort_nondecreasing exampleDataset exampleNameCriteria rfl⟩

/-- Claim C6: frame property of the pipeline on the array heap — the dataset
array is untouched (`FACTORIES.filter` allocates a fresh array and only that
fresh array is sorted in place), and the result reference holds exactly the
pure pipeline output. -/
theorem pipeline_frame (h : ℕ → List Factory) (next dataset : ℕ)
    (c : FilterCriteria) (hfresh : dataset ≠ next) :
    (applyOnHeap h next dataset c).1 dataset = h dataset ∧
    (applyOnHeap h next dataset c).1 (applyOnHeap h next dataset c).2.2 =
      filteredFactories (h dataset) c := by
  unfold applyOnHeap filteredFactories
  simp [hfresh]

theorem pipeline_frame_witness :
    (0 : ℕ) ≠ 1 ∧
    ((applyOnHeap exampleHeap 1 0 exampleCriteria).1 0 = exampleHeap 0 ∧
      (applyOnHeap exampleHeap 1 0 exampleCriteria).1
          (applyOnHeap exampleHeap 1 0 exampleCriteria).2.2 =
        filteredFactories (exampleHeap 0) exampleCriteria) :=
  ⟨by decide, pipeline_frame exampleHeap 1 0 exampleCriteria (by decide)⟩

/-- Claim C5: for every random stream and every count `n` the generator
returns exactly `n` records, with pairwise distinct ids that all lie in
`[1, n]`; no hypothesis beyond the count is needed, so there is no failure
mode. -/
theorem generator_count_and_ids (rs : ℕ → RandomDraw) (n : ℕ) :
    (generateFactories rs n).length = n ∧
    ((generateFactories rs n).map (fun f => f.id)).Nodup ∧
    ∀ f ∈ generateFactories rs n, 1 ≤ f.id ∧ f.id ≤ (n : ℤ) := by
  refine ⟨by simp [generateFactories], ?_, ?_⟩
  · have hmap : (generateFactories rs n).map (fun f => f.id) =
        (List.range n).map (fun k => ((k + 1 : ℕ) : ℤ)) := by
      simp only [generateFactories, List.map_map]
      rfl
    rw [hmap]
    have hinj : Function.Injective (fun k : ℕ => ((k + 1 : ℕ) : ℤ)) := by
      intro a b hab
      simpa using hab
    exact List.Nodup.map hinj (List.nodup_range n)
  · intro f hf
    rw [mem_generateFactories] at hf
    obtain ⟨k, hk, rfl⟩ := hf
    rw [mkFactory_id]
    constructor
    · exact_mod_cast Nat.succ_le_succ (Nat.zero_le k)
    · exact_mod_cast Nat.succ_le_of_lt hk

/-- Claim C3 (counterexample): the claim asserts that some choice of valid
random draws produces a record with `PM10 < PM2.5`; this is impossible — the
`PM10` noise is added, never subtracted, and the multiplier `1.8` exceeds 1,
so no generated record ever has `PM10 < PM2.5`. -/
theorem pm10_lt_pm25_impossible :
    (∃ rs : ℕ → RandomDraw, ∃ n : ℕ, ∃ f : Factory,
        (∀ k, ValidDraw (rs k)) ∧ f ∈ generateFactories rs n ∧
        f.pollution.pm10 < f.pollution.pm25) ↔ False := by
  refine iff_false_intro ?_
  rintro ⟨rs, n, f, hv, hm, hlt⟩
  rw [mem_generateFactories] at hm
  obtain ⟨k, hk, rfl⟩ := hm
  obtain ⟨-, -, -, -, haqi, hpm25, hpm10, -⟩ := hv k
  have := mkFactory_pm25_le_pm10 (k + 1) (rs k) haqi hpm25 hpm10
  omega

/-- Claim C3 (amended): for every valid random stream, every generated record
satisfies `PM2.5 ≤ PM10` (the inequality always holds, contrary to the
claim), and both values are nonnegative. -/
theorem pm10_ge_pm25_always (rs : ℕ → RandomDraw) (n : ℕ)
    (hrs : ∀ k, ValidDraw (rs k)) :
    ∀ f ∈ generateFactories rs n,
      f.pollution.pm25 ≤ f.pollution.pm10 ∧
      0 ≤ f.pollution.pm25 ∧ 0 ≤ f.pollution.pm10 := by
  intro f hf
  rw [mem_generateFactories] at hf
  obtain ⟨k, hk, rfl⟩ := hf
  obtain ⟨-, -, -, -, haqi, hpm25, hpm10, -⟩ := hrs k
  have h1 := mkFactory_pm25_ge (k + 1) (rs k) haqi hpm25
  have h2 := mkFactory_pm25_le_pm10 (k + 1) (rs k) haqi hpm25 hpm10
  exact ⟨h2, by omega, by omega⟩

theorem pm10_ge_pm25_always_witness :
    (∀ k, ValidDraw (zeroStream k)) ∧
    mkFactory 1 zeroDraw ∈ generateFactories zeroStream 1 ∧
    ((mkFactory 1 zeroDraw).pollution.pm25 ≤ (mkFactory 1 zeroDraw).pollution.pm10 ∧
      0 ≤ (mkFactory 1 zeroDraw).pollution.pm25 ∧
      0 ≤ (mkFactory 1 zeroDraw).pollution.pm10) := by
  have hz : ValidDraw zeroDraw := by decide
  have hv : ∀ k, ValidDraw (zeroStream k) := fun _ => hz
  have hm : mkFactory 1 zeroDraw ∈ generateFactories zeroStream 1 := by
    simp [generateFactories, zeroStream, List.range_succ]
  exact ⟨hv, hm, pm10_ge_pm25_always zeroStream 1 hv _ hm⟩

/-- Claim C10: every generated record's control measures are exactly the
first `k` entries of the fixed 8-item catalog, in catalog order, for some
`k ∈ [2, 6]`; in particular the list always begins with
"Electrostatic Precipitators". -/
theorem control_measures_take_catalog (rs : ℕ → RandomDraw) (n : ℕ)
    (hrs : ∀ k, ValidDraw (rs k)) :
    ∀ f ∈ generateFactories rs n, ∃ k, 2 ≤ k ∧ k ≤ 6 ∧
      f.controlMeasures = controlMeasures.take k ∧
      f.controlMeasures.head? = some "Electrostatic Precipitators" := by
  intro f hf
  rw [mem_generateFactories] at hf
  obtain ⟨j, hj, rfl⟩ := hf
  obtain ⟨-, -, -, -, -, -, -, -, -, -, -, -, -, -, -, -, -, -, -, -, -, -, -, -,
    -, -, -, -, -, hmeas, -⟩ := hrs j
  have h0 : 0 ≤ jsFloor ((rs j).measuresR * 5) :=
    jsFloor_nonneg (mul_nonneg hmeas.1 (by norm_num))
  have h5 : jsFloor ((rs j).measuresR * 5) < 5 :=
    jsFloor_lt (by push_cast; nlinarith [hmeas.2])
  refine ⟨(jsFloor ((rs j).measuresR * 5) + 2).toNat, by omega, by omega,
    mkFactory_controlMeasures _ _, ?_⟩
  rw [mkFactory_controlMeasures]
  obtain ⟨m, hm⟩ : ∃ m, (jsFloor ((rs j).measuresR * 5) + 2).toNat = m + 1 :=
    ⟨(jsFloor ((rs j).measuresR * 5) + 2).toNat - 1, by omega⟩
  rw [hm]
  rfl

theorem control_measures_take_catalog_witness :
    (∀ k, ValidDraw (zeroStream k)) ∧
    mkFactory 1 zeroDraw ∈ generateFactories zeroStream 1 ∧
    (∃ k, 2 ≤ k ∧ k ≤ 6 ∧
      (mkFactory 1 zeroDraw).controlMeasures = controlMeasures.take k ∧
      (mkFactory 1 zeroDraw).controlMeasures.head? =
        some "Electrostatic Precipitators") := by
  have hz : ValidDraw zeroDraw := by decide
  have hv : ∀ k, ValidDraw (zeroStream k) := fun _ => hz
  have hm : mkFactory 1 zeroDraw ∈ generateFactories zeroStream 1 := by
    simp [generateFactories, zeroStream, List.range_succ]
  exact ⟨hv, hm, control_measures_take_catalog zeroStream 1 hv _ hm⟩

theorem mkFactory_co (i : ℕ) (r : RandomDraw) :
    (mkFactory i r).pollution.co = jsToFixed (r.coR * 15 + 2) 2 := rfl

theorem mkFactory_co2 (i : ℕ) (r : RandomDraw) :
    (mkFactory i r).pollution.co2 = jsFloor (r.co2R * 800 + 400) := rfl

theorem mkFactory_nox (i : ℕ) (r : RandomDraw) :
    (mkFactory i r).pollution.nox = jsFloor (r.noxR * 150 + 30) := rfl

theorem mkFactory_so2 (i : ℕ) (r : RandomDraw) :
    (mkFactory i r).pollution.so2 = jsFloor (r.so2R * 200 + 40) := rfl

theorem mkFactory_o3 (i : ℕ) (r : RandomDraw) :
    (mkFactory i r).pollution.o3 = jsFloor (r.o3R * 120 + 20) := rfl

theorem mkFactory_voc (i : ℕ) (r : RandomDraw) :
    (mkFactory i r).pollution.voc = jsToFixed (r.vocR * 500 + 100) 1 := rfl

theorem mkFactory_pollutionValue_pos (i : ℕ) (r : RandomDraw) (hr : ValidDraw r)
    (p : String) (hp : p ∈ pollutantOptions) (hne : p ≠ "all") :
    ∃ v, pollutionValue (mkFactory i r).pollution p = some v ∧ 0 < v := by
  obtain ⟨-, -, -, -, haqi, hpm25, hpm10, -, -, hco, hco2, hnox, hso2, ho3, hvoc, -⟩ := hr
  have hpm25v : 20 ≤ (mkFactory i r).pollution.pm25 := mkFactory_pm25_ge i r haqi hpm25
  fin_cases hp
  · exact absurd rfl hne
  · refine ⟨((mkFactory i r).pollution.pm25 : ℚ), by simp [pollutionValue], ?_⟩
    have h : (0:ℤ) < (mkFactory i r).pollution.pm25 := by omega
    exact_mod_cast h
  · refine ⟨((mkFactory i r).pollution.pm10 : ℚ), by simp [pollutionValue], ?_⟩
    have hle := mkFactory_pm25_le_pm10 i r haqi hpm25 hpm10
    have h : (0:ℤ) < (mkFactory i r).pollution.pm10 := by omega
    exact_mod_cast h
  · refine ⟨(mkFactory i r).pollution.co, by simp [pollutionValue], ?_⟩
    rw [mkFactory_co]
    exact jsToFixed_pos 2 (by nlinarith [hco.1])
  · refine ⟨((mkFactory i r).pollution.co2 : ℚ), by simp [pollutionValue], ?_⟩
    have h : (0:ℤ) < (mkFactory i r).pollution.co2 := by
      rw [mkFactory_co2]
      have := le_jsFloor (z := 400) (q := r.co2R * 800 + 400)
        (by push_cast; nlinarith [hco2.1])
      omega
    exact_mod_cast h
  · refine ⟨((mkFactory i r).pollution.nox : ℚ), by simp [pollutionValue], ?_⟩
    have h : (0:ℤ) < (mkFactory i r).pollution.nox := by
      rw [mkFactory_nox]
      have := le_jsFloor (z := 30) (q := r.noxR * 150 + 30)
        (by push_cast; nlinarith [hnox.1])
      omega
    exact_mod_cast h
  · refine ⟨((mkFactory i r).pollution.so2 : ℚ), by simp [pollutionValue], ?_⟩
    have h : (0:ℤ) < (mkFactory i r).pollution.so2 := by
      rw [mkFactory_so2]
      have := le_jsFloor (z := 40) (q := r.so2R * 200 + 40)
        (by push_cast; nlinarith [hso2.1])
      omega
    exact_mod_cast h
  · refine ⟨((mkFactory i r).pollution.o3 : ℚ), by simp [pollutionValue], ?_⟩
    have h : (0:ℤ) < (mkFactory i r).pollution.o3 := by
      rw [mkFactory_o3]
      have := le_jsFloor (z := 20) (q := r.o3R * 120 + 20)
        (by push_cast; nlinarith [ho3.1])
      omega
    exact_mod_cast h
  · refine ⟨(mkFactory i r).pollution.voc, by simp [pollutionValue], ?_⟩
    rw [mkFactory_voc]
    exact jsToFixed_pos 1 (by nlinarith [hvoc.1])

/-- Claim C9: on generated data every pollutant value is strictly positive,
so selecting any pollutant focus (other than the `"all"` sentinel) filters
nothing: the pipeline output equals the output for the same criteria with
focus `"all"`. -/
theorem pollutant_focus_identity (rs : ℕ → RandomDraw) (n : ℕ)
    (hrs : ∀ k, ValidDraw (rs k)) (c : FilterCriteria) (p : String)
    (hp : p ∈ pollutantOptions) (hne : p ≠ "all") :
    (∀ f ∈ generateFactories rs n, ∃ v,
        pollutionValue f.pollution p = some v ∧ 0 < v) ∧
    filteredFactories (generateFactories rs n) { c with pollutantFilter := p } =
      filteredFactories (generateFactories rs n) { c with pollutantFilter := "all" } := by
  have hpos : ∀ f ∈ generateFactories rs n, ∃ v,
      pollutionValue f.pollution p = some v ∧ 0 < v := by
    intro f hf
    rw [mem_generateFactories] at hf
    obtain ⟨k, hk, rfl⟩ := hf
    exact mkFactory_pollutionValue_pos (k + 1) (rs k) (hrs k) p hp hne
  refine ⟨hpos, ?_⟩
  unfold filteredFactories
  have hfeq : (generateFactories rs n).filter
        (matchesCriteria { c with pollutantFilter := p }) =
      (generateFactories rs n).filter
        (matchesCriteria { c with pollutantFilter := "all" }) := by
    apply List.filter_congr
    intro f hf
    obtain ⟨v, hv, hvpos⟩ := hpos f hf
    simp only [matchesCriteria]
    have hP1 : (if p ≠ "all" then
        (match pollutionValue f.pollution p with
          | some v => decide (0 < v)
          | none => false)
        else true) = true := by
      rw [if_pos hne, hv]
      simpa using hvpos
    rw [hP1]
    simp
  rw [hfeq]

theorem pollutant_focus_identity_witness :
    (∀ k, ValidDraw (zeroStream k)) ∧ "pm25" ∈ pollutantOptions ∧ "pm25" ≠ "all" ∧
    ((∀ f ∈ generateFactories zeroStream 2, ∃ v,
        pollutionValue f.pollution "pm25" = some v ∧ 0 < v) ∧
      filteredFactories (generateFactories zeroStream 2)
          { exampleCriteria with pollutantFilter := "pm25" } =
        filteredFactories (generateFactories zeroStream 2)
          { exampleCriteria with pollutantFilter := "all" }) := by
  have hz : ValidDraw zeroDraw := by decide
  have hv : ∀ k, ValidDraw (zeroStream k) := fun _ => hz
  exact ⟨hv, by decide, by decide,
    pollutant_focus_identity zeroStream 2 hv exampleCriteria "pm25" (by decide) (by decide)⟩

end AetherScan
